import Mathlib

/-!
Verification development for the voir-backend session/credential lifecycle.

The controllers (`src/controllers/user.controller.js`) and the auth middleware
(`src/middlewares/auth.middleware.js`) are embedded as pure Lean functions over
an explicit database state (a list of user records).  Asynchronous datastore
calls become explicit state passing; a thrown `ApiError(status, message)`
becomes a `Result.err` value carrying the same status and message, matching the
uniform catch-and-translate boundary of the transport layer.

The files `models/user.model.js`, `utils/ApiError.js`, `utils/ApiResponse.js`
and `utils/asyncHandler.js` are not present in the repository snapshot; the
pieces of behaviour they provide (token signing and verification, password
hashing and verification, the error value shape) are modelled from the spec
where indicated by doc comments.
-/

namespace Voir

/-- Environment configuration: the two independently configured token secrets
and lifetimes (`ACCESS_TOKEN_SECRET`, `REFRESH_TOKEN_SECRET` and the matching
expiry settings read from the process environment). -/
structure Env where
  accessSecret : String
  refreshSecret : String
  accessTtl : Nat
  refreshTtl : Nat
deriving DecidableEq, Repr

/-- The decoded payload of a JSON web token: the subject id (the `_id` claim
the controllers read), plus issued-at and expiry instants in seconds. -/
structure Payload where
  subject : Nat
  iat : Nat
  exp : Nat
deriving DecidableEq, Repr

/-- A token string on the wire: either a structurally malformed string, or a
well-formed signed token, identified by its payload and the key it was signed
with.  Two signed tokens are the same string exactly when payload and key
agree. -/
inductive Jwt where
  | malformed (raw : String)
  | signed (payload : Payload) (key : String)
deriving DecidableEq, Repr

/-- The subject carried by a token, when it is well formed. -/
def Jwt.subject? : Jwt → Option Nat
  | .malformed _ => none
  | .signed p _ => some p.subject

/-- `jwt.verify(token, secret)` at clock instant `now`: rejects malformed
input, a signature made with a different key, and an expired token (the
`jsonwebtoken` library rejects once `now` reaches `exp`).  The error strings
are the messages of the errors the library throws, which the controllers echo
through `error?.message`. -/
def jwtVerify (tok : Jwt) (secret : String) (now : Nat) : Except String Payload :=
  match tok with
  | .malformed _ => .error "jwt malformed"
  | .signed p k =>
    if k ≠ secret then .error "invalid signature"
    else if p.exp ≤ now then .error "jwt expired"
    else .ok p

/-- A stored principal record (the mongoose `User` document).  `refreshToken`
is the single refresh slot: `none` when the field is unset (after `$unset` or
before any login). -/
structure User where
  id : Nat
  username : Option String
  email : Option String
  fullName : String
  passwordHash : String
  avatar : Option String
  coverImage : Option String
  refreshToken : Option Jwt
deriving DecidableEq, Repr

/-- The datastore: the collection of user documents, ids unique by intent. -/
abbrev DB := List User

/-- `User.findById(uid)`. -/
def findById (db : DB) (uid : Nat) : Option User :=
  db.find? (fun u => u.id == uid)

/-- `user.save()` / `findByIdAndUpdate`: replace the document with the given
id by the updated document. -/
def saveUser (db : DB) (u : User) : DB :=
  db.map (fun v => if v.id == u.id then u else v)

/-- Modelled from the spec: `utils/ApiError.js` is absent from the snapshot.
Per the error-handling design, every domain failure is a structured value
carrying a status code and a message, translated uniformly at the transport
boundary. -/
structure ApiError where
  status : Nat
  message : String
deriving DecidableEq, Repr

/-- The outcome of a controller: a success value or a thrown `ApiError`
caught by the asyncHandler boundary. -/
inductive Result (α : Type) where
  | ok (val : α)
  | err (e : ApiError)
deriving DecidableEq, Repr

/-- The catch block shared by `refreshAccessToken` and `verifyJWT`:
`throw new ApiError(401, error?.message || fallback)` — every error escaping
the try block is rethrown as a 401 carrying the original message (the thrown
errors all carry nonempty messages, so the fallback string is never used). -/
def rethrowAs401 {α : Type} : Result α → Result α
  | .err e => .err ⟨401, e.message⟩
  | .ok v => .ok v

/-- Whether the outcome is a success. -/
def Result.isOk {α : Type} : Result α → Bool
  | .ok _ => true
  | .err _ => false

/-- The status of the error outcome, if any. -/
def Result.errStatus? {α : Type} : Result α → Option Nat
  | .ok _ => none
  | .err e => some e.status

/-- The message of the error outcome, if any. -/
def Result.errMessage? {α : Type} : Result α → Option String
  | .ok _ => none
  | .err e => some e.message

/-- Modelled from the spec: `models/user.model.js` is absent from the
snapshot.  The Password Hasher produces a self-contained digest of the
plaintext; `verify` recomputes and compares. -/
def hashPassword (plain : String) : String :=
  "digest:" ++ plain

/-- Modelled from the spec: `user.isPasswordCorrect(password)` from the absent
`models/user.model.js`.  Hasher verification returns a boolean; a missing
plaintext (an absent request field) verifies as false. -/
def isPasswordCorrect (plain : Option String) (digest : String) : Bool :=
  match plain with
  | some p => hashPassword p == digest
  | none => false

/-- Modelled from the spec: `user.generateAccessToken()` from the absent
`models/user.model.js`.  The Token Codec issues a token for the subject id,
signed with the access secret, expiring after the access lifetime. -/
def generateAccessToken (env : Env) (u : User) (now : Nat) : Jwt :=
  .signed ⟨u.id, now, now + env.accessTtl⟩ env.accessSecret

/-- Modelled from the spec: `user.generateRefreshToken()` from the absent
`models/user.model.js`.  Signed with the refresh secret and refresh
lifetime. -/
def generateRefreshToken (env : Env) (u : User) (now : Nat) : Jwt :=
  .signed ⟨u.id, now, now + env.refreshTtl⟩ env.refreshSecret

/-- A JavaScript object with token-valued properties, as an association list.
Property access on a key the object does not have yields `undefined`
(`none`). -/
def objGet (o : List (String × Jwt)) (k : String) : Option Jwt :=
  (o.find? (fun kv => kv.1 == k)).map Prod.snd

/-- The error message of the catch-all in `generateAccessAndRefreshTokens`. -/
def genTokensErrMsg : String :=
  "Something went wrong while generating access and refresh tokens"

/-- `generateAccessAndRefreshTokens(userId)`: look the user up, generate both
tokens, store the refresh token in the document and save it, and return the
object `{ accessToken, refreshToken }`.  Any error inside (including the 404
thrown when the user is missing, and a failed save, modelled by the
`persistOk` flag) is caught and rethrown as a 500 with a fixed message.
Returns the resulting datastore state alongside the outcome. -/
def generateAccessAndRefreshTokens (env : Env) (db : DB) (userId : Nat)
    (now : Nat) (persistOk : Bool) : DB × Result (List (String × Jwt)) :=
  match findById db userId with
  | none => (db, .err ⟨500, genTokensErrMsg⟩)
  | some user =>
    let accessToken := generateAccessToken env user now
    let refreshToken := generateRefreshToken env user now
    if persistOk then
      (saveUser db { user with refreshToken := some refreshToken },
       .ok [("accessToken", accessToken), ("refreshToken", refreshToken)])
    else
      (db, .err ⟨500, genTokensErrMsg⟩)

/-- A JSON field value in a serialized user document. -/
inductive FieldVal where
  | str (s : String)
  | num (n : Nat)
  | jwt (j : Jwt)
deriving DecidableEq, Repr

/-- The serialization of a full user document: every set field, by name.
Unset optional fields are absent from the document, as mongoose omits unset
paths. -/
def userFields (u : User) : List (String × FieldVal) :=
  [("_id", .num u.id)]
  ++ (match u.username with | some s => [("username", FieldVal.str s)] | none => [])
  ++ (match u.email with | some s => [("email", FieldVal.str s)] | none => [])
  ++ [("fullName", .str u.fullName), ("password", .str u.passwordHash)]
  ++ (match u.avatar with | some s => [("avatar", FieldVal.str s)] | none => [])
  ++ (match u.coverImage with | some s => [("coverImage", FieldVal.str s)] | none => [])
  ++ (match u.refreshToken with | some t => [("refreshToken", FieldVal.jwt t)] | none => [])

/-- `.select("-field1 -field2")`: the serialized document with the excluded
fields removed. -/
def selectFields (exclude : List String) (u : User) : List (String × FieldVal) :=
  (userFields u).filter (fun kv => decide (kv.1 ∉ exclude))

/-- JavaScript string falsiness for an optional request field: absent
(`undefined`) or the empty string. -/
def falsy : Option String → Bool
  | none => true
  | some s => s == ""

/-- `User.findOne({ $or: [{ username }, { email }] })`: the first user whose
username or email equals a provided value.  A field that is absent from the
request is dropped from the query filter (mongoose strips undefined filter
values), so it matches nothing. -/
def findOneByLogin (db : DB) (username email : Option String) : Option User :=
  db.find? (fun u =>
    (match username with | some s => u.username == some s | none => false)
    || (match email with | some s => u.email == some s | none => false))

/-- The body of a login request; any field may be absent. -/
structure LoginReq where
  email : Option String
  username : Option String
  password : Option String
deriving Repr

/-- The JSON body of a successful login response: the projected user document
(null if the post-save lookup misses), and the two tokens destructured from
the generated pair object. -/
structure LoginOk where
  userDoc : Option (List (String × FieldVal))
  accessToken : Option Jwt
  refreshToken : Option Jwt
deriving DecidableEq, Repr

/-- `loginUser`: reject when both identifier fields are falsy; look the user
up by username or email (404 when missing); verify the password (401 when
wrong); generate and persist the token pair; reread the user with
`-password -refreshToken` projection; respond 200 with user, accessToken and
refreshToken.  Note the controller never checks that `password` is present. -/
def loginUser (env : Env) (db : DB) (req : LoginReq) (now : Nat)
    (persistOk : Bool) : DB × Result LoginOk :=
  if falsy req.username && falsy req.email then
    (db, .err ⟨400, "Enter either username or email"⟩)
  else
    match findOneByLogin db req.username req.email with
    | none => (db, .err ⟨404, "User not found!"⟩)
    | some user =>
      if !(isPasswordCorrect req.password user.passwordHash) then
        (db, .err ⟨401, "Invalid user credentials"⟩)
      else
        match generateAccessAndRefreshTokens env db user.id now persistOk with
        | (db2, .err e) => (db2, .err e)
        | (db2, .ok pair) =>
          let loggedInUser :=
            (findById db2 user.id).map (selectFields ["password", "refreshToken"])
          (db2, .ok ⟨loggedInUser, objGet pair "accessToken", objGet pair "refreshToken"⟩)

/-- `logoutUser`: `findByIdAndUpdate(req.user._id, { $unset: { refreshToken: 1 } })`,
then clear both cookies and respond 200.  The `$unset` is unconditional and
succeeds whether or not the slot held a value. -/
def logoutUser (db : DB) (userId : Nat) : DB × Result Unit :=
  (db.map (fun u => if u.id == userId then { u with refreshToken := none } else u),
   .ok ())

/-- A refresh request: the token may arrive in the cookie or in the body. -/
structure RefreshReq where
  cookieRefreshToken : Option Jwt
  bodyRefreshToken : Option Jwt
deriving Repr

/-- The JSON body of a successful refresh response:
`{ accessToken, refreshToken: newRefreshToken }`, each the result of a
property read on the generated pair object. -/
structure RefreshOk where
  accessToken : Option Jwt
  refreshToken : Option Jwt
deriving DecidableEq, Repr

/-- `refreshAccessToken`: take the presented token from cookie or body (401
when absent); inside a try block, verify it against the refresh secret, load
the user by the decoded `_id` (401 when missing), compare the presented token
against the stored slot (401 reuse error on mismatch, without touching the
slot), then call `generateAccessAndRefreshTokens` and destructure the result
as `{ accessToken, newRefreshToken }` — the pair object has no
`newRefreshToken` property, so that read yields `undefined`.  The catch block
rethrows every error as a 401 carrying the original message. -/
def refreshAccessToken (env : Env) (db : DB) (req : RefreshReq) (now : Nat)
    (persistOk : Bool) : DB × Result RefreshOk :=
  match req.cookieRefreshToken.orElse (fun _ => req.bodyRefreshToken) with
  | none => (db, .err ⟨401, "Unauthorized request"⟩)
  | some incoming =>
    let inner : DB × Result RefreshOk :=
      match jwtVerify incoming env.refreshSecret now with
      | .error msg => (db, .err ⟨401, msg⟩)
      | .ok decoded =>
        match findById db decoded.subject with
        | none => (db, .err ⟨401, "Unauthorized request"⟩)
        | some user =>
          if user.refreshToken ≠ some incoming then
            (db, .err ⟨401, "Refresh token is expired or used"⟩)
          else
            match generateAccessAndRefreshTokens env db user.id now persistOk with
            | (db2, .err e) => (db2, .err e)
            | (db2, .ok pair) =>
              (db2, .ok ⟨objGet pair "accessToken", objGet pair "newRefreshToken"⟩)
    (inner.1, rethrowAs401 inner.2)

/-- An authenticated request reaching the auth gate: the access token may
arrive in the cookie or as a bearer header. -/
structure AuthReq where
  cookieAccessToken : Option Jwt
  bearerToken : Option Jwt
deriving Repr

/-- `verifyJWT` middleware: extract the token from cookie or header (401 when
absent — thrown inside the try), verify against the access secret, load the
user with `-password -refreshToken` projection (401 when missing), and attach
the projected user to the request.  The catch block rethrows every error as a
401 carrying the original message. -/
def verifyJWT (env : Env) (db : DB) (req : AuthReq) (now : Nat) :
    Result (List (String × FieldVal)) :=
  let inner : Result (List (String × FieldVal)) :=
    match req.cookieAccessToken.orElse (fun _ => req.bearerToken) with
    | none => .err ⟨401, "Unauthorized request"⟩
    | some token =>
      match jwtVerify token env.accessSecret now with
      | .error msg => .err ⟨401, msg⟩
      | .ok decoded =>
        match findById db decoded.subject with
        | none => .err ⟨401, "Invalid access token"⟩
        | some user => .ok (selectFields ["password", "refreshToken"] user)
  rethrowAs401 inner

/-- The body and files of a registration request. -/
structure RegisterReq where
  fullName : Option String
  email : Option String
  username : Option String
  password : Option String
  avatarLocalPath : Option String
  coverImageLocalPath : Option String
deriving Repr

/-- The registration field validation: a provided field whose trimmed value is
the empty string fails; an absent field passes (optional chaining makes
`undefined?.trim() === ""` false). -/
def emptyTrimmed : Option String → Bool
  | some s => s.trim == ""
  | none => false

/-- `registerUser`: validate the four body fields, reject a duplicate
username or email with 409, require an avatar path, upload both images (the
upload outcomes are parameters, the blob store being an external
collaborator), create the user with the username lowercased and the password
hashed by the model hook (modelled from the spec: the hashing pre-save hook
lives in the absent `models/user.model.js`), and respond 201 with the
`-password -refreshToken` projection of the created document.  A null avatar
upload or an absent required field makes the create throw, surfacing as a
500. -/
def registerUser (db : DB) (req : RegisterReq) (newId : Nat)
    (avatarUpload coverUpload : Option String) :
    DB × Result (List (String × FieldVal)) :=
  if [req.fullName, req.email, req.username, req.password].any emptyTrimmed then
    (db, .err ⟨400, "All fields are required"⟩)
  else
    match findOneByLogin db req.username req.email with
    | some _ =>
      (db, .err ⟨409, "User with the same email or username already exists"⟩)
    | none =>
      match req.avatarLocalPath with
      | none => (db, .err ⟨400, "Avatar image is required"⟩)
      | some _ =>
        match avatarUpload, req.fullName, req.email, req.username, req.password with
        | some avatarUrl, some fn, some em, some un, some pw =>
          let newUser : User :=
            { id := newId
              username := some un.toLower
              email := some em
              fullName := fn
              passwordHash := hashPassword pw
              avatar := some avatarUrl
              coverImage := some (coverUpload.getD "")
              refreshToken := none }
          let db2 := db ++ [newUser]
          match findById db2 newId with
          | none =>
            (db2, .err ⟨500, "Something went wrong while registering the user"⟩)
          | some created =>
            (db2, .ok (selectFields ["password", "refreshToken"] created))
        | _, _, _, _, _ =>
          (db, .err ⟨500, "Something went wrong while registering the user"⟩)

/-- `updateAccountDetails`: 400 when either body field is falsy, otherwise
`findByIdAndUpdate` setting both fields with `new: true` and a `-password`
projection; the (possibly null) updated document is the response body. -/
def updateAccountDetails (db : DB) (userId : Nat)
    (fullName email : Option String) :
    DB × Result (Option (List (String × FieldVal))) :=
  if falsy fullName || falsy email then
    (db, .err ⟨400, "All the fields are required"⟩)
  else
    let db2 := db.map (fun u =>
      if u.id == userId then
        { u with fullName := fullName.getD u.fullName, email := email }
      else u)
    (db2, .ok ((findById db2 userId).map (selectFields ["password"])))

/-- `updateUserAvatar`: require a file path, load the user with a `-password`
projection (404 when missing), upload the new avatar (400 when the upload
returns null), delete the old blob externally, set the new URL and save; the
saved document — projected without password only — is the response body. -/
def updateUserAvatar (db : DB) (userId : Nat) (filePath : Option String)
    (uploadResult : Option String) :
    DB × Result (List (String × FieldVal)) :=
  match filePath with
  | none => (db, .err ⟨400, "Avatar file is missing"⟩)
  | some _ =>
    match findById db userId with
    | none => (db, .err ⟨404, "User not found"⟩)
    | some user =>
      match uploadResult with
      | none =>
        (db, .err ⟨400, "Error while uploading avatar file on Cloudinary"⟩)
      | some url =>
        let user2 := { user with avatar := some url }
        (saveUser db user2, .ok (selectFields ["password"] user2))

/-- `updateUserCoverImage`: as `updateUserAvatar`, for the cover image. -/
def updateUserCoverImage (db : DB) (userId : Nat) (filePath : Option String)
    (uploadResult : Option String) :
    DB × Result (List (String × FieldVal)) :=
  match filePath with
  | none => (db, .err ⟨400, "Cover image file is missing"⟩)
  | some _ =>
    match findById db userId with
    | none => (db, .err ⟨404, "User not found"⟩)
    | some user =>
      match uploadResult with
      | none =>
        (db, .err ⟨400, "Error while uploading cover image file on Cloudinary"⟩)
      | some url =>
        let user2 := { user with coverImage := some url }
        (saveUser db user2, .ok (selectFields ["password"] user2))

/-!
Small-step view of `refreshAccessToken` for reasoning about two requests
racing on the same datastore.  Each `await` on the datastore is an atomic
step; between two of a requests steps the other request may run.  The three
datastore interactions of one refresh request are: the controller
`findById` (whose snapshot the slot comparison uses), the `findById` inside
`generateAccessAndRefreshTokens`, and the `save` that writes the new refresh
token unconditionally.
-/

/-- The progress of one in-flight refresh request: not yet started; past the
slot check; past the generator read with both tokens computed; or finished
with the client-visible outcome. -/
inductive RPhase where
  | start
  | checked (user : User)
  | generated (user : User)
  | done (outcome : Result RefreshOk)
deriving DecidableEq, Repr

/-- One atomic datastore step of a refresh request that presented token
`incoming` at instant `now`.  The outcomes written into `done` are the
client-visible ones, after the catch block of `refreshAccessToken` has
rewrapped errors as 401. -/
def rStep (env : Env) (incoming : Jwt) (now : Nat) (persistOk : Bool)
    (db : DB) : RPhase → DB × RPhase
  | .start =>
    match jwtVerify incoming env.refreshSecret now with
    | .error msg => (db, .done (.err ⟨401, msg⟩))
    | .ok decoded =>
      match findById db decoded.subject with
      | none => (db, .done (.err ⟨401, "Unauthorized request"⟩))
      | some user =>
        if user.refreshToken ≠ some incoming then
          (db, .done (.err ⟨401, "Refresh token is expired or used"⟩))
        else
          (db, .checked user)
  | .checked user =>
    match findById db user.id with
    | none => (db, .done (.err ⟨401, genTokensErrMsg⟩))
    | some reread => (db, .generated reread)
  | .generated user =>
    if persistOk then
      (saveUser db { user with refreshToken := some (generateRefreshToken env user now) },
       .done (.ok ⟨some (generateAccessToken env user now), none⟩))
    else
      (db, .done (.err ⟨401, genTokensErrMsg⟩))
  | .done outcome => (db, .done outcome)

/-- The joint state of the datastore and two in-flight refresh requests. -/
structure TwoRefresh where
  db : DB
  a : RPhase
  b : RPhase
deriving DecidableEq, Repr

/-- Run an interleaving of two refresh requests: each schedule entry picks
which request performs its next atomic step.  Request A presents `incA` at
`nowA`; request B presents `incB` at `nowB`. -/
def runSchedule (env : Env) (incA incB : Jwt) (nowA nowB : Nat)
    (persistOk : Bool) : List Bool → TwoRefresh → TwoRefresh
  | [], s => s
  | pick :: rest, s =>
    if pick then
      let (db2, a2) := rStep env incA nowA persistOk s.db s.a
      runSchedule env incA incB nowA nowB persistOk rest ⟨db2, a2, s.b⟩
    else
      let (db2, b2) := rStep env incB nowB persistOk s.db s.b
      runSchedule env incA incB nowA nowB persistOk rest ⟨db2, s.a, b2⟩

/-!  Concrete fixtures used by witnesses and counterexamples. -/

/-- A concrete environment configuration. -/
def exEnv : Env := ⟨"asec", "rsec", 5, 100⟩

/-- A concrete refresh token: subject 1, issued at 0, expiring at 100, signed
with the refresh secret of `exEnv`. -/
def exR1 : Jwt := .signed ⟨1, 0, 100⟩ "rsec"

/-- A concrete stored principal whose refresh slot holds `exR1`. -/
def exAlice : User :=
  { id := 1, username := some "alice", email := some "a@x.com",
    fullName := "Alice A", passwordHash := hashPassword "pw",
    avatar := some "http://img/av.png", coverImage := none,
    refreshToken := some exR1 }

/-- A concrete datastore holding only `exAlice`. -/
def exDb : DB := [exAlice]

/-!  General lemmas about the datastore primitives. -/

/-- A found user matches the id it was looked up by. -/
theorem findById_id_eq {db : DB} {uid : Nat} {u : User}
    (h : findById db uid = some u) : u.id = uid := by
  have := List.find?_some h
  simpa using this

/-- Looking up through a map whose function preserves ids is looking up and
then mapping. -/
theorem findById_map_preserve (db : DB) (uid : Nat) (g : User → User)
    (hg : ∀ v, (g v).id = v.id) :
    findById (db.map g) uid = (findById db uid).map g := by
  induction db with
  | nil => rfl
  | cons w ws ih =>
    by_cases hw : w.id = uid
    · simp [findById, List.find?, hg, hw]
    · simp only [findById, List.map_cons, List.find?] at *
      have h1 : ((g w).id == uid) = false := by simp [hg, hw]
      have h2 : (w.id == uid) = false := by simp [hw]
      rw [h1, h2]
      exact ih

/-- `saveUser` preserves every document id. -/
theorem saveUser_preserves_id (v w : User) :
    (if w.id == v.id then v else w).id = w.id := by
  by_cases h : w.id = v.id
  · simp [h]
  · simp [h]

/-- Saving a document and looking its id up returns the saved document. -/
theorem findById_saveUser {db : DB} {uid : Nat} {u : User} (v : User)
    (hfind : findById db uid = some u) (hid : v.id = u.id) :
    findById (saveUser db v) uid = some v := by
  have huid : u.id = uid := findById_id_eq hfind
  unfold saveUser
  rw [findById_map_preserve db uid _ (saveUser_preserves_id v), hfind]
  simp [hid, huid]

/-!  Lemmas about the generated pair object and the refresh flow. -/

/-- Rethrowing through the catch block always yields status 401 on error. -/
theorem rethrowAs401_err {α : Type} (r : Result α) (e : ApiError)
    (h : rethrowAs401 r = .err e) : e.status = 401 := by
  cases r with
  | err e0 =>
    simp [rethrowAs401] at h
    rw [← h]
  | ok v => simp [rethrowAs401] at h

/-- Reading `accessToken` from the generated pair object. -/
theorem objGet_accessToken (a r : Jwt) :
    objGet [("accessToken", a), ("refreshToken", r)] "accessToken" = some a := by
  rfl

/-- Reading `refreshToken` from the generated pair object. -/
theorem objGet_refreshToken (a r : Jwt) :
    objGet [("accessToken", a), ("refreshToken", r)] "refreshToken" = some r := by
  rfl

/-- Reading the absent `newRefreshToken` property yields `undefined`. -/
theorem objGet_newRefreshToken (a r : Jwt) :
    objGet [("accessToken", a), ("refreshToken", r)] "newRefreshToken" = none := by
  rfl

/-- A refresh presenting a well-signed unexpired token that does not match the
stored slot fails with the 401 reuse error and leaves the datastore
untouched. -/
theorem refresh_mismatch (env : Env) (db : DB) (p : Payload) (u : User)
    (now : Nat) (persistOk : Bool)
    (hexp : now < p.exp)
    (hfind : findById db p.subject = some u)
    (hslot : u.refreshToken ≠ some (Jwt.signed p env.refreshSecret)) :
    refreshAccessToken env db ⟨some (Jwt.signed p env.refreshSecret), none⟩
        now persistOk =
      (db, .err ⟨401, "Refresh token is expired or used"⟩) := by
  have hver : jwtVerify (Jwt.signed p env.refreshSecret) env.refreshSecret now
      = .ok p := by
    unfold jwtVerify
    simp [Nat.not_le.mpr hexp]
  unfold refreshAccessToken
  simp [Option.orElse, hver, hfind, hslot, rethrowAs401]

/-- A refresh presenting the token currently held in the slot succeeds: the
slot is swapped to the freshly generated refresh token, the response carries
the fresh access token, and the response refresh token is `undefined` because
the destructuring reads the absent `newRefreshToken` property. -/
theorem refresh_happy (env : Env) (db : DB) (p : Payload) (u : User) (now : Nat)
    (hexp : now < p.exp)
    (hfind : findById db p.subject = some u)
    (hid : p.subject = u.id)
    (hslot : u.refreshToken = some (Jwt.signed p env.refreshSecret)) :
    refreshAccessToken env db ⟨some (Jwt.signed p env.refreshSecret), none⟩
        now true =
      (saveUser db { u with refreshToken := some (generateRefreshToken env u now) },
       .ok ⟨some (generateAccessToken env u now), none⟩) := by
  have hver : jwtVerify (Jwt.signed p env.refreshSecret) env.refreshSecret now
      = .ok p := by
    unfold jwtVerify
    simp [Nat.not_le.mpr hexp]
  have hfind2 : findById db u.id = some u := hid ▸ hfind
  unfold refreshAccessToken generateAccessAndRefreshTokens
  simp [Option.orElse, hver, hfind, hfind2, hslot, rethrowAs401,
    objGet_accessToken, objGet_newRefreshToken]

/-- Every failing outcome of `refreshAccessToken` carries status 401: the
catch block rewraps every internal error as a 401. -/
theorem refresh_err_status (env : Env) (db : DB) (req : RefreshReq) (now : Nat)
    (persistOk : Bool) (e : ApiError)
    (h : (refreshAccessToken env db req now persistOk).2 = .err e) :
    e.status = 401 := by
  unfold refreshAccessToken at h
  split at h
  · simp only [Result.err.injEq] at h
    rw [← h]
  · exact rethrowAs401_err _ e h

/-- Every failing outcome of `verifyJWT` carries status 401. -/
theorem verifyJWT_err_status (env : Env) (db : DB) (req : AuthReq) (now : Nat)
    (e : ApiError) (h : verifyJWT env db req now = .err e) :
    e.status = 401 := by
  unfold verifyJWT at h
  exact rethrowAs401_err _ e h

/-!  Lemmas about login, logout and the projections. -/

/-- Characterization of a successful login: the slot is swapped to the fresh
refresh token and the response carries both tokens plus the projected user. -/
theorem login_happy (env : Env) (db : DB) (req : LoginReq) (u : User) (now : Nat)
    (hval : (falsy req.username && falsy req.email) = false)
    (hfindOne : findOneByLogin db req.username req.email = some u)
    (hpw : isPasswordCorrect req.password u.passwordHash = true)
    (hfind : findById db u.id = some u) :
    loginUser env db req now true =
      (saveUser db { u with refreshToken := some (generateRefreshToken env u now) },
       .ok ⟨some (selectFields ["password", "refreshToken"]
              { u with refreshToken := some (generateRefreshToken env u now) }),
            some (generateAccessToken env u now),
            some (generateRefreshToken env u now)⟩) := by
  have hsave : findById
      (saveUser db { u with refreshToken := some (generateRefreshToken env u now) })
      u.id = some { u with refreshToken := some (generateRefreshToken env u now) } :=
    findById_saveUser _ hfind rfl
  unfold loginUser generateAccessAndRefreshTokens
  simp [hval, hfindOne, hpw, hfind, hsave,
    objGet_accessToken, objGet_refreshToken]

/-- Logout clears the slot of the targeted document and keeps every other
document unchanged; looking the id up afterwards sees the cleared slot. -/
theorem findById_logout (db : DB) (uid : Nat) :
    findById (logoutUser db uid).1 uid =
      (findById db uid).map (fun u => { u with refreshToken := none }) := by
  unfold logoutUser
  rw [findById_map_preserve]
  · rcases h : findById db uid with _ | u
    · rfl
    · have : u.id = uid := findById_id_eq h
      simp [this]
  · intro v
    by_cases h : v.id = uid
    · simp [h]
    · simp [h]

/-- Logout is idempotent on the datastore. -/
theorem logout_idempotent (db : DB) (uid : Nat) :
    logoutUser (logoutUser db uid).1 uid = logoutUser db uid := by
  unfold logoutUser
  simp only [List.map_map, Prod.mk.injEq, and_true]
  apply List.map_congr_left
  intro v _
  by_cases h : v.id = uid
  · simp [Function.comp, h]
  · simp [Function.comp, h]

/-- Logout on a datastore where the targeted slot is already empty changes
nothing. -/
theorem logout_already_empty (db : DB) (uid : Nat)
    (h : ∀ v ∈ db, v.id = uid → v.refreshToken = none) :
    (logoutUser db uid).1 = db := by
  unfold logoutUser
  simp only
  have : ∀ v ∈ db, (if v.id == uid then { v with refreshToken := none } else v) = v := by
    intro v hv
    by_cases hid : v.id = uid
    · simp only [hid, beq_self_eq_true, if_true]
      have hrt : v.refreshToken = none := h v hv hid
      cases v
      simp_all
    · simp [hid]
  calc db.map (fun v => if v.id == uid then { v with refreshToken := none } else v)
      = db.map id := List.map_congr_left (by simpa using this)
    _ = db := List.map_id db

/-- The serialized slot field is present in a projection that does not
exclude it, whenever the slot holds a value. -/
theorem selectFields_mem_refreshToken (exclude : List String) (u : User)
    (t : Jwt) (hslot : u.refreshToken = some t)
    (hex : "refreshToken" ∉ exclude) :
    ("refreshToken", FieldVal.jwt t) ∈ selectFields exclude u := by
  unfold selectFields userFields
  rw [hslot]
  simp [List.mem_filter, hex]

/-- An excluded field never appears in the projection. -/
theorem selectFields_not_mem (exclude : List String) (u : User) (k : String)
    (fv : FieldVal) (hk : k ∈ exclude) :
    (k, fv) ∉ selectFields exclude u := by
  intro hmem
  unfold selectFields at hmem
  rw [List.mem_filter] at hmem
  exact absurd hk (by simpa using hmem.2)

/-- Rethrowing through the catch block is transparent on success. -/
theorem rethrowAs401_ok {α : Type} (r : Result α) (v : α)
    (h : rethrowAs401 r = .ok v) : r = .ok v := by
  cases r with
  | err e0 => simp [rethrowAs401] at h
  | ok w => exact h

/-- Every successful outcome of `verifyJWT` attaches a user document projected
without the password and refreshToken fields. -/
theorem verifyJWT_ok_shape (env : Env) (db : DB) (req : AuthReq) (now : Nat)
    (doc : List (String × FieldVal))
    (h : verifyJWT env db req now = .ok doc) :
    ∃ w, doc = selectFields ["password", "refreshToken"] w := by
  unfold verifyJWT at h
  have h2 := rethrowAs401_ok _ _ h
  split at h2
  · exact absurd h2 (by simp)
  · split at h2
    · exact absurd h2 (by simp)
    · split at h2
      · exact absurd h2 (by simp)
      · exact ⟨_, by injection h2 with h3; exact h3.symm⟩

/-- Every user document in a successful login response is projected without
the password and refreshToken fields. -/
theorem login_ok_shape (env : Env) (db : DB) (req : LoginReq) (now : Nat)
    (persistOk : Bool) (out : LoginOk) (doc : List (String × FieldVal))
    (h : (loginUser env db req now persistOk).2 = .ok out)
    (hdoc : out.userDoc = some doc) :
    ∃ w, doc = selectFields ["password", "refreshToken"] w := by
  unfold loginUser at h
  split at h
  · exact absurd h (by simp)
  · split at h
    · exact absurd h (by simp)
    · split at h
      · exact absurd h (by simp)
      · split at h
        · exact absurd h (by simp)
        · injection h with h2
          rw [← h2] at hdoc
          simp only [Option.map_eq_some'] at hdoc
          obtain ⟨w, _, hw⟩ := hdoc
          exact ⟨w, hw.symm⟩

/-- Every document in a successful registration response is projected without
the password and refreshToken fields. -/
theorem register_ok_shape (db : DB) (req : RegisterReq) (newId : Nat)
    (aU cU : Option String) (doc : List (String × FieldVal))
    (h : (registerUser db req newId aU cU).2 = .ok doc) :
    ∃ w, doc = selectFields ["password", "refreshToken"] w := by
  unfold registerUser at h
  split at h
  · exact absurd h (by simp)
  · split at h
    · exact absurd h (by simp)
    · split at h
      · exact absurd h (by simp)
      · split at h
        · simp only [] at h
          split at h
          · exact absurd h (by simp)
          · exact ⟨_, by injection h with h2; exact h2.symm⟩
        · exact absurd h (by simp)

/-- Looking up after an id-targeted conditional update sees the updated
document. -/
theorem findById_update_map (db : DB) (uid : Nat) (u : User) (f : User → User)
    (hfind : findById db uid = some u) (hf : ∀ v, (f v).id = v.id) :
    findById (db.map (fun v => if v.id == uid then f v else v)) uid
      = some (f u) := by
  have hg : ∀ v, ((fun v => if v.id == uid then f v else v) v).id = v.id := by
    intro v
    by_cases h : v.id = uid
    · simp [h, hf]
    · simp [h]
  rw [findById_map_preserve db uid _ hg, hfind]
  have huid : u.id = uid := findById_id_eq hfind
  simp [huid]

/-!  Claim theorems. -/

/-- Claim C1: the claim states that a successful `refresh(R1)` stores a new
refresh value R2 in the slot and returns a pair whose refresh token equals
that stored R2.  At the concrete input below the code stores R2 (the token
signed at instant 10) in the slot, yet the response refresh token is `none`
(undefined): the controller destructures the property `newRefreshToken` from
an object whose only token properties are `accessToken` and `refreshToken`,
so the client never receives the stored value and cannot present it in a
subsequent refresh. -/
theorem C1_refresh_response_token_undefined :
    (refreshAccessToken exEnv exDb ⟨some exR1, none⟩ 10 true).2 =
        .ok ⟨some (Jwt.signed ⟨1, 10, 15⟩ "asec"), none⟩ ∧
    findById (refreshAccessToken exEnv exDb ⟨some exR1, none⟩ 10 true).1 1 =
        some { exAlice with refreshToken := some (Jwt.signed ⟨1, 10, 110⟩ "rsec") } ∧
    (none : Option Jwt) ≠ some (Jwt.signed ⟨1, 10, 110⟩ "rsec") := by
  decide

/-- Claim C2 counterexample: with the interleaved schedule below, two refresh
calls that both present the currently stored token `exR1` BOTH finish
successfully, contradicting the claim that exactly one succeeds and the other
fails with the reuse error, and contradicting that the slot update is an
atomic compare-and-swap. -/
theorem C2_counterexample_both_succeed :
    ((runSchedule exEnv exR1 exR1 10 11 true [true, false, true, true, false, false]
        ⟨exDb, .start, .start⟩).a =
      RPhase.done (.ok ⟨some (Jwt.signed ⟨1, 10, 15⟩ "asec"), none⟩)) ∧
    ((runSchedule exEnv exR1 exR1 10 11 true [true, false, true, true, false, false]
        ⟨exDb, .start, .start⟩).b =
      RPhase.done (.ok ⟨some (Jwt.signed ⟨1, 11, 16⟩ "asec"), none⟩)) := by
  decide

/-- Claim C2 (amended): the refresh flow checks the slot in one datastore read
and writes the new value in a later separate write, with no atomic
compare-and-swap; consequently the exactly-one-winner property holds only for
calls that do not interleave.  Run sequentially, of two refresh calls
presenting the same stored token the first succeeds, the second fails with
the 401 reuse error without touching the datastore, and the slot ends up
holding exactly the one value written by the winner. -/
theorem C2_amended_sequential_exactly_one (env : Env) (db : DB) (p : Payload)
    (u : User) (now1 now2 : Nat)
    (hexp1 : now1 < p.exp) (hexp2 : now2 < p.exp)
    (hfind : findById db p.subject = some u)
    (hid : p.subject = u.id)
    (hslot : u.refreshToken = some (Jwt.signed p env.refreshSecret))
    (hiat : p.iat ≠ now1) :
    ((refreshAccessToken env db ⟨some (Jwt.signed p env.refreshSecret), none⟩
        now1 true).2).isOk = true ∧
    refreshAccessToken env
        (refreshAccessToken env db ⟨some (Jwt.signed p env.refreshSecret), none⟩
          now1 true).1
        ⟨some (Jwt.signed p env.refreshSecret), none⟩ now2 true =
      ((refreshAccessToken env db ⟨some (Jwt.signed p env.refreshSecret), none⟩
          now1 true).1,
       .err ⟨401, "Refresh token is expired or used"⟩) ∧
    findById
        (refreshAccessToken env db ⟨some (Jwt.signed p env.refreshSecret), none⟩
          now1 true).1 u.id =
      some { u with refreshToken := some (generateRefreshToken env u now1) } := by
  have h1 := refresh_happy env db p u now1 hexp1 hfind hid hslot
  have hfind2 : findById db u.id = some u := hid ▸ hfind
  have hsave : findById
      (saveUser db { u with refreshToken := some (generateRefreshToken env u now1) })
      p.subject =
      some { u with refreshToken := some (generateRefreshToken env u now1) } := by
    rw [hid]
    exact findById_saveUser _ hfind2 rfl
  have hne : ({ u with refreshToken := some (generateRefreshToken env u now1) } :
      User).refreshToken ≠ some (Jwt.signed p env.refreshSecret) := by
    simp only [generateRefreshToken, Ne, Option.some.injEq, Jwt.signed.injEq, not_and]
    intro hcon
    exact absurd (congrArg Payload.iat hcon).symm hiat
  refine ⟨by rw [h1]; rfl, ?_, ?_⟩
  · rw [h1]
    exact refresh_mismatch env _ p _ now2 true hexp2 hsave hne
  · rw [h1]
    exact findById_saveUser _ hfind2 rfl

/-- Claim C3: a refresh presenting a validly signed, unexpired token whose
value differs from the stored slot (the empty slot included) fails with the
401 reuse error and leaves the datastore, hence the slot, unchanged. -/
theorem C3_mismatch_rejected_slot_unchanged (env : Env) (db : DB) (p : Payload)
    (u : User) (now : Nat) (persistOk : Bool)
    (hexp : now < p.exp)
    (hfind : findById db p.subject = some u)
    (hslot : u.refreshToken ≠ some (Jwt.signed p env.refreshSecret)) :
    refreshAccessToken env db ⟨some (Jwt.signed p env.refreshSecret), none⟩
        now persistOk =
      (db, .err ⟨401, "Refresh token is expired or used"⟩) :=
  refresh_mismatch env db p u now persistOk hexp hfind hslot

/-- Witness for C3, with an empty refresh slot: the previously issued token
is rejected with 401 and the datastore is unchanged. -/
theorem C3_witness :
    refreshAccessToken exEnv [{ exAlice with refreshToken := none }]
        ⟨some exR1, none⟩ 10 true =
      ([{ exAlice with refreshToken := none }],
       .err ⟨401, "Refresh token is expired or used"⟩) :=
  C3_mismatch_rejected_slot_unchanged exEnv
    [{ exAlice with refreshToken := none }] ⟨1, 0, 100⟩
    { exAlice with refreshToken := none } 10 true
    (by decide) (by decide) (by decide)

/-- Claim C4 counterexample: two token-verification failures with different
underlying reasons (a structurally malformed token vs a token signed with the
wrong key) produce 401 responses with DIFFERENT messages, so the failure
reason is observable from the response, contradicting the claimed uniform
message. -/
theorem C4_counterexample_messages_differ :
    ((refreshAccessToken exEnv exDb ⟨some (Jwt.malformed "x"), none⟩
        10 true).2).errMessage? = some "jwt malformed" ∧
    ((refreshAccessToken exEnv exDb
        ⟨some (Jwt.signed ⟨1, 0, 100⟩ "othersec"), none⟩ 10 true).2).errMessage?
      = some "invalid signature" ∧
    some "jwt malformed" ≠ some "invalid signature" := by
  decide

/-- Claim C4 (amended): every token-verification failure in the Auth Gate and
in refresh is client-visible as status 401, but the response message echoes
the message of the underlying error (for example a malformed refresh token
yields "jwt malformed") instead of one uniform Unauthorized message, so the
failure reason remains observable. -/
theorem C4_amended_status_401_message_echoes (env : Env) (db : DB)
    (rreq : RefreshReq) (areq : AuthReq) (nowR nowA : Nat) (persistOk : Bool) :
    (∀ e, (refreshAccessToken env db rreq nowR persistOk).2 = .err e →
      e.status = 401) ∧
    (∀ e, verifyJWT env db areq nowA = .err e → e.status = 401) ∧
    ((refreshAccessToken env db ⟨some (Jwt.malformed "x"), none⟩
        nowR persistOk).2).errMessage? = some "jwt malformed" := by
  refine ⟨fun e h => refresh_err_status env db rreq nowR persistOk e h,
    fun e h => verifyJWT_err_status env db areq nowA e h, ?_⟩
  unfold refreshAccessToken
  simp [Option.orElse, jwtVerify, rethrowAs401, Result.errMessage?]

/-- Witness for C4 (amended), at a concrete malformed-token request. -/
theorem C4_witness :
    (ApiError.mk 401 "jwt malformed").status = 401 :=
  (C4_amended_status_401_message_echoes exEnv exDb
      ⟨some (Jwt.malformed "x"), none⟩ ⟨none, none⟩ 10 0 true).1
    ⟨401, "jwt malformed"⟩ (by decide)

/-- Witness for C2 (amended): the two sequential refresh calls on the
concrete fixture, at instants 10 and 11. -/
theorem C2_witness :
    ((refreshAccessToken exEnv exDb
        ⟨some (Jwt.signed ⟨1, 0, 100⟩ exEnv.refreshSecret), none⟩ 10 true).2).isOk
      = true ∧
    refreshAccessToken exEnv
        (refreshAccessToken exEnv exDb
          ⟨some (Jwt.signed ⟨1, 0, 100⟩ exEnv.refreshSecret), none⟩ 10 true).1
        ⟨some (Jwt.signed ⟨1, 0, 100⟩ exEnv.refreshSecret), none⟩ 11 true =
      ((refreshAccessToken exEnv exDb
          ⟨some (Jwt.signed ⟨1, 0, 100⟩ exEnv.refreshSecret), none⟩ 10 true).1,
       .err ⟨401, "Refresh token is expired or used"⟩) ∧
    findById
        (refreshAccessToken exEnv exDb
          ⟨some (Jwt.signed ⟨1, 0, 100⟩ exEnv.refreshSecret), none⟩ 10 true).1
        exAlice.id =
      some { exAlice with refreshToken := some (generateRefreshToken exEnv exAlice 10) } :=
  C2_amended_sequential_exactly_one exEnv exDb ⟨1, 0, 100⟩ exAlice 10 11
    (by decide) (by decide) (by decide) (by decide) (by decide) (by decide)

/-- Claim C5: for a stored principal matched by the provided identifier whose
password verifies, login succeeds: the decoded subject of both returned
tokens equals the principal id, and the refresh slot afterwards holds exactly
the issued refresh token value returned to the client. -/
theorem C5_login_success (env : Env) (db : DB) (req : LoginReq) (u : User)
    (now : Nat)
    (hval : (falsy req.username && falsy req.email) = false)
    (hfindOne : findOneByLogin db req.username req.email = some u)
    (hpw : isPasswordCorrect req.password u.passwordHash = true)
    (hfind : findById db u.id = some u) :
    (loginUser env db req now true).2 =
      .ok ⟨some (selectFields ["password", "refreshToken"]
             { u with refreshToken := some (generateRefreshToken env u now) }),
           some (generateAccessToken env u now),
           some (generateRefreshToken env u now)⟩ ∧
    (generateAccessToken env u now).subject? = some u.id ∧
    (generateRefreshToken env u now).subject? = some u.id ∧
    findById (loginUser env db req now true).1 u.id =
      some { u with refreshToken := some (generateRefreshToken env u now) } := by
  have h := login_happy env db req u now hval hfindOne hpw hfind
  refine ⟨by rw [h], rfl, rfl, ?_⟩
  rw [h]
  exact findById_saveUser _ hfind rfl

/-- Witness for C5: alice logs in with her password at instant 10. -/
theorem C5_witness :
    (loginUser exEnv exDb ⟨none, some "alice", some "pw"⟩ 10 true).2 =
      .ok ⟨some (selectFields ["password", "refreshToken"]
             { exAlice with refreshToken := some (generateRefreshToken exEnv exAlice 10) }),
           some (generateAccessToken exEnv exAlice 10),
           some (generateRefreshToken exEnv exAlice 10)⟩ ∧
    (generateAccessToken exEnv exAlice 10).subject? = some exAlice.id ∧
    (generateRefreshToken exEnv exAlice 10).subject? = some exAlice.id ∧
    findById (loginUser exEnv exDb ⟨none, some "alice", some "pw"⟩ 10 true).1
        exAlice.id =
      some { exAlice with refreshToken := some (generateRefreshToken exEnv exAlice 10) } :=
  C5_login_success exEnv exDb ⟨none, some "alice", some "pw"⟩ exAlice 10
    (by decide) (by decide) (by decide) (by decide)

/-- Claim C6: login with an identifier matching a stored principal but a
password that does not verify fails with 401 InvalidCredentials and returns
the datastore unchanged, so the refresh slot is untouched and no tokens are
issued or persisted. -/
theorem C6_wrong_password_rejected (env : Env) (db : DB) (req : LoginReq)
    (u : User) (now : Nat) (persistOk : Bool)
    (hval : (falsy req.username && falsy req.email) = false)
    (hfindOne : findOneByLogin db req.username req.email = some u)
    (hpw : isPasswordCorrect req.password u.passwordHash = false) :
    loginUser env db req now persistOk =
      (db, .err ⟨401, "Invalid user credentials"⟩) := by
  unfold loginUser
  simp [hval, hfindOne, hpw]

/-- Witness for C6: alice with a wrong password. -/
theorem C6_witness :
    loginUser exEnv exDb ⟨none, some "alice", some "wrong"⟩ 10 true =
      (exDb, .err ⟨401, "Invalid user credentials"⟩) :=
  C6_wrong_password_rejected exEnv exDb ⟨none, some "alice", some "wrong"⟩
    exAlice 10 true (by decide) (by decide) (by decide)

/-- Claim C7: when persisting the refresh token fails, login fails with 500
InternalError, the datastore is unchanged, and no tokens are returned: token
issuance and slot persistence act as a single unit. -/
theorem C7_persist_failure_500_no_tokens (env : Env) (db : DB) (req : LoginReq)
    (u : User) (now : Nat)
    (hval : (falsy req.username && falsy req.email) = false)
    (hfindOne : findOneByLogin db req.username req.email = some u)
    (hpw : isPasswordCorrect req.password u.passwordHash = true) :
    loginUser env db req now false = (db, .err ⟨500, genTokensErrMsg⟩) := by
  unfold loginUser generateAccessAndRefreshTokens
  rcases hfindId : findById db u.id with _ | v
  · simp [hval, hfindOne, hpw, hfindId]
  · simp [hval, hfindOne, hpw, hfindId]

/-- Witness for C7: alice logs in correctly but the save fails. -/
theorem C7_witness :
    loginUser exEnv exDb ⟨none, some "alice", some "pw"⟩ 10 false =
      (exDb, .err ⟨500, genTokensErrMsg⟩) :=
  C7_persist_failure_500_no_tokens exEnv exDb ⟨none, some "alice", some "pw"⟩
    exAlice 10 (by decide) (by decide) (by decide)

/-- Claim C8: logout succeeds unconditionally and empties the refresh slot;
it is idempotent and a no-op on an already-empty slot; afterwards a refresh
presenting the previously valid refresh token fails with status 401 and the
datastore stays as logout left it. -/
theorem C8_logout_clears_idempotent_blocks_refresh (env : Env) (db : DB)
    (uid : Nat) (p : Payload) (u : User) (now : Nat) (persistOk : Bool)
    (hsub : p.subject = uid)
    (hexp : now < p.exp)
    (hfind : findById db uid = some u) :
    (logoutUser db uid).2 = .ok () ∧
    findById (logoutUser db uid).1 uid = some { u with refreshToken := none } ∧
    logoutUser (logoutUser db uid).1 uid = logoutUser db uid ∧
    ((∀ v ∈ db, v.id = uid → v.refreshToken = none) → (logoutUser db uid).1 = db) ∧
    refreshAccessToken env (logoutUser db uid).1
        ⟨some (Jwt.signed p env.refreshSecret), none⟩ now persistOk =
      ((logoutUser db uid).1, .err ⟨401, "Refresh token is expired or used"⟩) := by
  have hafter : findById (logoutUser db uid).1 uid =
      some { u with refreshToken := none } := by
    rw [findById_logout, hfind]
    rfl
  refine ⟨rfl, hafter, logout_idempotent db uid, logout_already_empty db uid, ?_⟩
  have hfind2 : findById (logoutUser db uid).1 p.subject =
      some { u with refreshToken := none } := by
    rw [hsub]
    exact hafter
  exact refresh_mismatch env _ p _ now persistOk hexp hfind2 (by simp)

/-- Witness for C8: alice logs out and then presents her old refresh token. -/
theorem C8_witness :
    (logoutUser exDb 1).2 = .ok () ∧
    findById (logoutUser exDb 1).1 1 = some { exAlice with refreshToken := none } ∧
    logoutUser (logoutUser exDb 1).1 1 = logoutUser exDb 1 ∧
    ((∀ v ∈ exDb, v.id = 1 → v.refreshToken = none) → (logoutUser exDb 1).1 = exDb) ∧
    refreshAccessToken exEnv (logoutUser exDb 1).1
        ⟨some (Jwt.signed ⟨1, 0, 100⟩ exEnv.refreshSecret), none⟩ 10 true =
      ((logoutUser exDb 1).1, .err ⟨401, "Refresh token is expired or used"⟩) :=
  C8_logout_clears_idempotent_blocks_refresh exEnv exDb 1 ⟨1, 0, 100⟩ exAlice
    10 true (by decide) (by decide) (by decide)

/-- Claim C9 counterexample: a login request with the username present and
the password absent is NOT rejected with a 400 ValidationError: the
controller validates only the identifier fields, so the request proceeds to
the principal lookup and credential check and fails there with status 401. -/
theorem C9_counterexample_missing_password_not_400 :
    (loginUser exEnv exDb ⟨none, some "alice", none⟩ 10 true).2 =
      .err ⟨401, "Invalid user credentials"⟩ ∧
    (401 : Nat) ≠ 400 := by
  decide

/-- Claim C9 (amended): login fails with ValidationError 400, before any
principal lookup or credential check, exactly when both identifier fields
(username and email) are missing or empty; the presence of the password is
never validated, and a missing password flows into the credential check
instead. -/
theorem C9_amended_identifier_validation (env : Env) (db : DB) (req : LoginReq)
    (now : Nat) (persistOk : Bool)
    (hu : falsy req.username = true) (he : falsy req.email = true) :
    loginUser env db req now persistOk =
      (db, .err ⟨400, "Enter either username or email"⟩) := by
  unfold loginUser
  simp [hu, he]

/-- Witness for C9 (amended): both identifiers absent, password present. -/
theorem C9_witness :
    loginUser exEnv exDb ⟨none, none, some "pw"⟩ 10 true =
      (exDb, .err ⟨400, "Enter either username or email"⟩) :=
  C9_amended_identifier_validation exEnv exDb ⟨none, none, some "pw"⟩ 10 true
    (by decide) (by decide)

/-- Claim C10: the success responses of `updateAccountDetails`,
`updateUserAvatar` and `updateUserCoverImage` serialize the principal with
only the password excluded — in particular the stored refreshToken value
appears in those responses — while the login, register and authenticate
(`verifyJWT`) projections exclude both password and refreshToken. -/
theorem C10_update_responses_include_refreshToken
    (db : DB) (u : User) (t : Jwt) (fn em avPath covPath avUrl covUrl : String)
    (hfind : findById db u.id = some u)
    (hslot : u.refreshToken = some t)
    (hfn : fn ≠ "") (hem : em ≠ "") :
    (∃ doc, (updateAccountDetails db u.id (some fn) (some em)).2 = .ok (some doc) ∧
       ("refreshToken", FieldVal.jwt t) ∈ doc ∧ ∀ fv, ("password", fv) ∉ doc) ∧
    (∃ doc, (updateUserAvatar db u.id (some avPath) (some avUrl)).2 = .ok doc ∧
       ("refreshToken", FieldVal.jwt t) ∈ doc ∧ ∀ fv, ("password", fv) ∉ doc) ∧
    (∃ doc, (updateUserCoverImage db u.id (some covPath) (some covUrl)).2 = .ok doc ∧
       ("refreshToken", FieldVal.jwt t) ∈ doc ∧ ∀ fv, ("password", fv) ∉ doc) ∧
    (∀ env areq now doc, verifyJWT env db areq now = .ok doc →
       (∀ fv, ("password", fv) ∉ doc) ∧ ∀ fv, ("refreshToken", fv) ∉ doc) ∧
    (∀ env lreq now pOk out doc, (loginUser env db lreq now pOk).2 = .ok out →
       out.userDoc = some doc →
       (∀ fv, ("password", fv) ∉ doc) ∧ ∀ fv, ("refreshToken", fv) ∉ doc) ∧
    (∀ rdb rreq nid aU cU doc,
       (registerUser rdb rreq nid aU cU).2 = .ok doc →
       (∀ fv, ("password", fv) ∉ doc) ∧ ∀ fv, ("refreshToken", fv) ∉ doc) := by
  have hcond : (falsy (some fn) || falsy (some em)) = false := by
    simp [falsy, hfn, hem]
  refine ⟨?_, ?_, ?_, ?_, ?_, ?_⟩
  · have hmap := findById_update_map db u.id u
      (fun v => { v with fullName := (some fn).getD v.fullName, email := some em })
      hfind (fun v => rfl)
    refine ⟨selectFields ["password"]
        { u with fullName := (some fn).getD u.fullName, email := some em },
      ?_, ?_, ?_⟩
    · unfold updateAccountDetails
      rw [if_neg (by simp [hcond])]
      simp only [hmap, Option.map_some']
    · exact selectFields_mem_refreshToken _ _ t (by simpa using hslot) (by decide)
    · exact fun fv => selectFields_not_mem _ _ _ fv (by decide)
  · refine ⟨selectFields ["password"] { u with avatar := some avUrl }, ?_, ?_, ?_⟩
    · unfold updateUserAvatar
      rw [hfind]
    · exact selectFields_mem_refreshToken _ _ t (by simpa using hslot) (by decide)
    · exact fun fv => selectFields_not_mem _ _ _ fv (by decide)
  · refine ⟨selectFields ["password"] { u with coverImage := some covUrl }, ?_, ?_, ?_⟩
    · unfold updateUserCoverImage
      rw [hfind]
    · exact selectFields_mem_refreshToken _ _ t (by simpa using hslot) (by decide)
    · exact fun fv => selectFields_not_mem _ _ _ fv (by decide)
  · intro env areq now doc hok
    obtain ⟨w, hw⟩ := verifyJWT_ok_shape env db areq now doc hok
    subst hw
    exact ⟨fun fv => selectFields_not_mem _ _ _ fv (by decide),
           fun fv => selectFields_not_mem _ _ _ fv (by decide)⟩
  · intro env lreq now pOk out doc hok hdoc
    obtain ⟨w, hw⟩ := login_ok_shape env db lreq now pOk out doc hok hdoc
    subst hw
    exact ⟨fun fv => selectFields_not_mem _ _ _ fv (by decide),
           fun fv => selectFields_not_mem _ _ _ fv (by decide)⟩
  · intro rdb rreq nid aU cU doc hok
    obtain ⟨w, hw⟩ := register_ok_shape rdb rreq nid aU cU doc hok
    subst hw
    exact ⟨fun fv => selectFields_not_mem _ _ _ fv (by decide),
           fun fv => selectFields_not_mem _ _ _ fv (by decide)⟩

/-- Witness for C10, on the concrete fixture with the slot holding `exR1`. -/
theorem C10_witness :
    (∃ doc, (updateAccountDetails exDb exAlice.id (some "Alice B") (some "b@x.com")).2
          = .ok (some doc) ∧
       ("refreshToken", FieldVal.jwt exR1) ∈ doc ∧ ∀ fv, ("password", fv) ∉ doc) ∧
    (∃ doc, (updateUserAvatar exDb exAlice.id (some "pa") (some "ua")).2 = .ok doc ∧
       ("refreshToken", FieldVal.jwt exR1) ∈ doc ∧ ∀ fv, ("password", fv) ∉ doc) ∧
    (∃ doc, (updateUserCoverImage exDb exAlice.id (some "pc") (some "uc")).2 = .ok doc ∧
       ("refreshToken", FieldVal.jwt exR1) ∈ doc ∧ ∀ fv, ("password", fv) ∉ doc) ∧
    (∀ env areq now doc, verifyJWT env exDb areq now = .ok doc →
       (∀ fv, ("password", fv) ∉ doc) ∧ ∀ fv, ("refreshToken", fv) ∉ doc) ∧
    (∀ env lreq now pOk out doc, (loginUser env exDb lreq now pOk).2 = .ok out →
       out.userDoc = some doc →
       (∀ fv, ("password", fv) ∉ doc) ∧ ∀ fv, ("refreshToken", fv) ∉ doc) ∧
    (∀ rdb rreq nid aU cU doc,
       (registerUser rdb rreq nid aU cU).2 = .ok doc →
       (∀ fv, ("password", fv) ∉ doc) ∧ ∀ fv, ("refreshToken", fv) ∉ doc) :=
  C10_update_responses_include_refreshToken exDb exAlice exR1
    "Alice B" "b@x.com" "pa" "pc" "ua" "uc"
    (by decide) (by decide) (by decide) (by decide)

end Voir
